import Mathlib

/-!
Shallow embedding of the `POST /api/recognize` relay in `src/server.js`.

The source file contains two variants of the server. Variant 2 (the later
one, targeting the animeTrace API) accepts a file or a URL plus the
options `is_multi`, `model`, `ai_detect`, and maps upstream numeric error
codes through an eleven-entry switch. Variant 1 (the earlier one,
targeting dio.jite.me) accepts only a file plus the legacy
`use_correction` option. Both variants share the same multer
configuration (5 MiB size limit, `image/` mimetype filter) and the same
trailing error-handling middleware.

JavaScript truthiness is modelled explicitly: an optional string field is
truthy when it is present and non-empty; an optional numeric `code` field
is truthy when it is present and non-zero. `undefined` is modelled as
`Option.none`.
-/

set_option autoImplicit false

namespace AnimeFace

/-- A file as produced by multer memory storage: `buffer` holds the bytes
(kept abstract as a string), `originalname` and `mimetype` are the
client-declared metadata, `size` is the byte count multer streamed. -/
structure FilePart where
  buffer : String
  originalname : String
  mimetype : String
  size : Nat
  deriving Repr, DecidableEq

/-- An inbound request to variant 2 of `POST /api/recognize`: `req.file`
from multer plus the `req.body` fields read by the handler. A field that
the client did not send is `none`. -/
structure InboundRequest where
  file : Option FilePart
  url : Option String
  is_multi : Option String
  model : Option String
  ai_detect : Option String
  deriving Repr, DecidableEq

/-- An inbound request to variant 1 of `POST /api/recognize`. -/
structure InboundRequestV1 where
  file : Option FilePart
  use_correction : Option String
  deriving Repr, DecidableEq

/-- A value appended to the outbound `form-data` form: either a file part
(with filename and content type options, server.js lines 203-206) or a
plain string field. -/
inductive FormValue where
  | fileVal (buffer : String) (filename : String) (contentType : String)
  | strVal (s : String)
  deriving Repr, DecidableEq

/-- One `form.append(name, value)` call on the outbound form. -/
structure FormField where
  name : String
  value : FormValue
  deriving Repr, DecidableEq

/-- `limits.fileSize` in the multer configuration: 5 * 1024 * 1024. -/
def fileSizeLimit : Nat := 5 * 1024 * 1024

/-- Outcome of the multer middleware `upload.single('file')` before the
route handler runs: accepted, rejected by the `fileFilter` (a plain
`Error('只允许上传图片文件')`), or rejected by the size limit (a
`MulterError` with code `LIMIT_FILE_SIZE`). -/
inductive IntakeResult where
  | ok
  | filterError
  | sizeLimitError
  deriving Repr, DecidableEq

/-- JS `s.startsWith(p)`, embedded on the character lists of the two
strings so that it evaluates by kernel reduction. -/
def jsStartsWith (s p : String) : Bool :=
  p.data.isPrefixOf s.data

/-- The multer middleware on the optional uploaded file. The `fileFilter`
is consulted when the file part arrives, before its data is streamed, so
a non-image mimetype is rejected before the size limit can fire. -/
def intake (file : Option FilePart) : IntakeResult :=
  match file with
  | none => .ok
  | some f =>
    if jsStartsWith f.mimetype "image/" then
      if f.size > fileSizeLimit then .sizeLimitError else .ok
    else .filterError

/-- JS truthiness of an optional string (`undefined`, `null` and the
empty string are falsy). -/
def strTruthy (u : Option String) : Bool :=
  match u with
  | some s => s != ""
  | none => false

/-- `if (x !== undefined) form.append(name, x)` for an optional body
field (server.js lines 213-221 and 65-67). -/
def optField (name : String) (v : Option String) : List FormField :=
  match v with
  | some s => [⟨name, .strVal s⟩]
  | none => []

/-- The `if (req.file) ... else if (imageUrl) ...` block of variant 2
(server.js lines 200-210): a file field when `req.file` is present, else
a url field when `imageUrl` is truthy, else nothing. -/
def mediaFields (file : Option FilePart) (url : Option String) : List FormField :=
  match file, url with
  | some f, _ => [⟨"file", .fileVal f.buffer f.originalname f.mimetype⟩]
  | none, some u => if u != "" then [⟨"url", .strVal u⟩] else []
  | none, none => []

/-- The outbound multipart form built by variant 2 (server.js lines
198-221): the file-or-url block, then each defined option appended in
order. -/
def buildForm (req : InboundRequest) : List FormField :=
  mediaFields req.file req.url ++
  optField "is_multi" req.is_multi ++
  optField "model" req.model ++
  optField "ai_detect" req.ai_detect

/-- The outbound multipart form built by variant 1 (server.js lines
58-67): the file (the guard guarantees it is present) plus the legacy
`use_correction` option when defined. -/
def buildFormV1 (f : FilePart) (useCorrection : Option String) : List FormField :=
  [⟨"file", .fileVal f.buffer f.originalname f.mimetype⟩] ++
  optField "use_correction" useCorrection

/-- The JSON body of an upstream error response, per the upstream
contract: an optional numeric `code` and an optional free-text
`message`. -/
structure UpstreamData where
  code : Option Int
  message : Option String
  deriving Repr, DecidableEq

/-- Outcome of the axios call to the upstream recognition service:
2xx response with a body, non-2xx response with status and parsed JSON
body (`error.response`), no response at all (`error.request`), or a
local request-construction fault (the final `else`). -/
inductive UpstreamOutcome where
  | success (body : String)
  | rejected (status : Nat) (data : UpstreamData)
  | unreachable
  | buildError (msg : String)
  deriving Repr, DecidableEq

/-- The generic fallback message `'识别服务错误'` (variant 2). -/
def defaultServiceError : String := "识别服务错误"

/-- JS `m || dflt` on the optional `message` field: absent or empty
string falls back to `dflt`. -/
def messageOr (m : Option String) (dflt : String) : String :=
  match m with
  | some s => if s = "" then dflt else s
  | none => dflt

/-- The `switch (data.code)` chain of variant 2 (server.js lines
246-282) for a truthy code: eleven recognized animeTrace codes, with the
`default:` branch falling back to `data.message || errorMessage`. -/
def tableMessage (c : Int) (data : UpstreamData) : String :=
  if c = 17701 then "图片大小过大，请上传更小的图片"
  else if c = 17702 then "服务器繁忙，请稍后重试"
  else if c = 17703 then "请求参数不正确，请检查输入"
  else if c = 17704 then "API维护中，请稍后重试"
  else if c = 17705 then "图片格式不支持，请上传JPG、PNG或GIF格式"
  else if c = 17706 then "识别无法完成，请重试"
  else if c = 17707 then "服务器内部错误，请重试"
  else if c = 17708 then "图片中的人物数量超过限制"
  else if c = 17722 then "图片下载失败，请检查图片URL"
  else if c = 17728 then "已达到本次使用上限，请稍后再试"
  else if c = 17731 then "服务利用人数过多，请重新尝试"
  else messageOr data.message defaultServiceError

/-- The error message computed by variant 2 for an `error.response`
failure (server.js lines 243-285): `if (data && data.code)` enters the
switch (a zero code is falsy and skips it), otherwise
`data.message || errorMessage`. -/
def mapErrorMessage (data : UpstreamData) : String :=
  match data.code with
  | some c => if c = 0 then messageOr data.message defaultServiceError else tableMessage c data
  | none => messageOr data.message defaultServiceError

/-- The error message computed by variant 1 for an `error.response`
failure (server.js line 86). -/
def mapErrorMessageV1 (data : UpstreamData) : String :=
  "识别服务错误: " ++ messageOr data.message "未知错误"

/-- The body of an endpoint response: an upstream success body relayed
by `res.json(response.data)`, or an error envelope with an `error`
string and an optional `details` field (omitted when `none`). -/
inductive ResponseBody where
  | passthrough (body : String)
  | errBody (error : String) (details : Option UpstreamData)
  deriving Repr, DecidableEq

/-- An HTTP response of the endpoint: status code plus JSON body. -/
structure EndpointResponse where
  status : Nat
  body : ResponseBody
  deriving Repr, DecidableEq

/-- Variant 2 missing-input message (server.js line 188). -/
def missingImageMsg : String := "请上传图片文件或输入图片URL地址"

/-- Variant 1 missing-input message (server.js line 51). -/
def missingImageMsgV1 : String := "请上传图片文件"

/-- The `LIMIT_FILE_SIZE` message of the error middleware. -/
def sizeLimitMsg : String := "文件大小超过限制（最大5MB）"

/-- The catch-all message of the error middleware. -/
def internalErrorMsg : String := "服务器内部错误"

/-- The `error.request` (no response received) message. -/
def unreachableMsg : String := "无法连接到识别服务，请稍后重试"

/-- Response assembly of variant 2 once the outbound call has been made
with `form` (server.js lines 231-301): success passes the body through
with status 200; `error.response` maps status, message and
`details: data`; `error.request` and other errors give 500 without
details. -/
def dispatch (form : List FormField) (outcome : UpstreamOutcome) :
    EndpointResponse × Option (List FormField) :=
  match outcome with
  | .success body => (⟨200, .passthrough body⟩, some form)
  | .rejected st d => (⟨st, .errBody (mapErrorMessage d) (some d)⟩, some form)
  | .unreachable => (⟨500, .errBody unreachableMsg none⟩, some form)
  | .buildError m => (⟨500, .errBody ("请求配置错误: " ++ m) none⟩, some form)

/-- Same as `dispatch` for variant 1 (server.js lines 78-99), whose
rejected-message format differs. -/
def dispatchV1 (form : List FormField) (outcome : UpstreamOutcome) :
    EndpointResponse × Option (List FormField) :=
  match outcome with
  | .success body => (⟨200, .passthrough body⟩, some form)
  | .rejected st d => (⟨st, .errBody (mapErrorMessageV1 d) (some d)⟩, some form)
  | .unreachable => (⟨500, .errBody unreachableMsg none⟩, some form)
  | .buildError m => (⟨500, .errBody ("请求配置错误: " ++ m) none⟩, some form)

/-- The whole variant-2 request cycle: multer intake, then the
error-handling middleware on an intake error, then the handler guard
`if (!req.file && !req.body.url)`, then form building and the upstream
call. The second component is the outbound call that was made (`none`
when no call was attempted), carrying the form it was made with. The
`outcome` parameter is the upstream behaviour for this request; it is
ignored when no call is made. -/
def processRequest (req : InboundRequest) (outcome : UpstreamOutcome) :
    EndpointResponse × Option (List FormField) :=
  match intake req.file with
  | .filterError => (⟨500, .errBody internalErrorMsg none⟩, none)
  | .sizeLimitError => (⟨400, .errBody sizeLimitMsg none⟩, none)
  | .ok =>
    if req.file.isNone && !(strTruthy req.url) then
      (⟨400, .errBody missingImageMsg none⟩, none)
    else
      dispatch (buildForm req) outcome

/-- The whole variant-1 request cycle, with the guard
`if (!req.file)` (server.js lines 50-52). -/
def processRequestV1 (req : InboundRequestV1) (outcome : UpstreamOutcome) :
    EndpointResponse × Option (List FormField) :=
  match intake req.file with
  | .filterError => (⟨500, .errBody internalErrorMsg none⟩, none)
  | .sizeLimitError => (⟨400, .errBody sizeLimitMsg none⟩, none)
  | .ok =>
    match req.file with
    | none => (⟨400, .errBody missingImageMsgV1 none⟩, none)
    | some f => dispatchV1 (buildFormV1 f req.use_correction) outcome

/-- A request that passed validation (a file, or a truthy url) makes the
missing-input guard false. -/
theorem guard_false_of_input (req : InboundRequest)
    (hin : req.file.isSome = true ∨ strTruthy req.url = true) :
    (req.file.isNone && !(strTruthy req.url)) = false := by
  rcases hin with h | h
  · cases hf : req.file with
    | none => rw [hf] at h; simp at h
    | some f => simp [hf]
  · simp [h]

/-- Claim C1: for every upstream failure response whose JSON body carries
the numeric code 17701, the mapped user message is the configured
image-too-large text and the endpoint status equals the upstream
status. -/
theorem c1_code_17701_maps_image_too_large (req : InboundRequest) (st : Nat) (d : UpstreamData)
    (hok : intake req.file = .ok)
    (hin : req.file.isSome = true ∨ strTruthy req.url = true)
    (hcode : d.code = some 17701) :
    processRequest req (.rejected st d) =
      (⟨st, .errBody "图片大小过大，请上传更小的图片" (some d)⟩, some (buildForm req)) := by
  have hg := guard_false_of_input req hin
  simp [processRequest, hok, hg, dispatch, mapErrorMessage, hcode, tableMessage]

/-- Witness for C1 at a concrete URL request rejected upstream with
status 413 and code 17701. -/
theorem c1_witness :
    processRequest ⟨none, some "http://e.com/a.png", none, none, none⟩
        (.rejected 413 ⟨some 17701, some "image too large"⟩) =
      (⟨413, .errBody "图片大小过大，请上传更小的图片"
          (some ⟨some 17701, some "image too large"⟩)⟩,
        some (buildForm ⟨none, some "http://e.com/a.png", none, none, none⟩)) :=
  c1_code_17701_maps_image_too_large _ 413 _ rfl (Or.inr (by decide)) rfl

/-- Claim C3: a request with neither a file nor a url field gets HTTP
400 with the missing-image message and no outbound call is made, in
both variants. -/
theorem c3_missing_input_400 (req : InboundRequest) (r1 : InboundRequestV1)
    (outcome : UpstreamOutcome)
    (hf : req.file = none) (hu : req.url = none) (hf1 : r1.file = none) :
    processRequest req outcome = (⟨400, .errBody missingImageMsg none⟩, none) ∧
    processRequestV1 r1 outcome = (⟨400, .errBody missingImageMsgV1 none⟩, none) := by
  constructor
  · simp [processRequest, intake, hf, hu, strTruthy]
  · simp [processRequestV1, intake, hf1]

/-- Witness for C3 at concrete empty requests. -/
theorem c3_witness :
    processRequest ⟨none, none, none, none, none⟩ .unreachable =
      (⟨400, .errBody missingImageMsg none⟩, none) ∧
    processRequestV1 ⟨none, none⟩ .unreachable =
      (⟨400, .errBody missingImageMsgV1 none⟩, none) :=
  c3_missing_input_400 _ _ _ rfl rfl rfl

/-- Claim C4: on a 2xx upstream response the endpoint answers HTTP 200
with the upstream body passed through unchanged. -/
theorem c4_success_passthrough (req : InboundRequest) (body : String)
    (hok : intake req.file = .ok)
    (hin : req.file.isSome = true ∨ strTruthy req.url = true) :
    processRequest req (.success body) = (⟨200, .passthrough body⟩, some (buildForm req)) := by
  have hg := guard_false_of_input req hin
  simp [processRequest, hok, hg, dispatch]

/-- Witness for C4 at a concrete file upload and a concrete upstream
body. -/
theorem c4_witness :
    processRequest ⟨some ⟨"PNGBYTES", "a.png", "image/png", 8⟩, none, none, none, none⟩
        (.success "\x7b\"matches\": []\x7d") =
      (⟨200, .passthrough "\x7b\"matches\": []\x7d"⟩,
        some (buildForm ⟨some ⟨"PNGBYTES", "a.png", "image/png", 8⟩, none, none, none, none⟩)) :=
  c4_success_passthrough _ _ (by decide) (Or.inl (by decide))

/-- The file-or-url block never contributes a field with another
name. -/
theorem mediaFields_filter_eq_nil (file : Option FilePart) (url : Option String) (nm : String)
    (h1 : ("file" == nm) = false) (h2 : ("url" == nm) = false) :
    (mediaFields file url).filter (fun fld => fld.name == nm) = [] := by
  simp only [beq_eq_false_iff_ne] at h1 h2
  rcases file with _ | f <;> rcases url with _ | u <;>
    simp [mediaFields, h1, h2,
      apply_ite (List.filter (fun fld : FormField => fld.name == nm))]

/-- Claim C2, counterexample to the claim as stated: for an unrecognized
code with a present but empty `message` field, the mapped message is the
generic service-error text, not the (empty) `message` field. -/
theorem c2_counterexample :
    (UpstreamData.mk (some 99) (some "")).message = some "" ∧
    mapErrorMessage (UpstreamData.mk (some 99) (some "")) = defaultServiceError ∧
    defaultServiceError ≠ "" := by
  exact ⟨rfl, by decide, by decide⟩

/-- Claim C2, amended: for every upstream body whose code is not one of
the eleven recognized codes, the mapped message is the body's `message`
field when that field is truthy (present and non-empty), and the generic
service-error message otherwise. -/
theorem c2_unknown_code_fallback (d : UpstreamData) (c : Int)
    (hc : d.code = some c)
    (hnot : c ∉ ([17701, 17702, 17703, 17704, 17705, 17706, 17707,
                  17708, 17722, 17728, 17731] : List Int)) :
    mapErrorMessage d = messageOr d.message defaultServiceError := by
  simp only [List.mem_cons, List.not_mem_nil, or_false, not_or] at hnot
  obtain ⟨h1, h2, h3, h4, h5, h6, h7, h8, h9, h10, h11⟩ := hnot
  by_cases h0 : c = 0
  · simp [mapErrorMessage, hc, h0]
  · simp [mapErrorMessage, hc, h0, tableMessage,
          h1, h2, h3, h4, h5, h6, h7, h8, h9, h10, h11]

/-- Witness for amended C2 at code 42 with a non-empty message. -/
theorem c2_witness :
    mapErrorMessage (UpstreamData.mk (some 42) (some "upstream text")) = "upstream text" := by
  rw [c2_unknown_code_fallback (UpstreamData.mk (some 42) (some "upstream text")) 42 rfl
    (by decide)]
  decide

/-- Claim C5: in variant 2 the outbound form carries exactly the defined
options among `is_multi`, `model`, `ai_detect` (verbatim, absent when
undefined, and never the legacy `use_correction`); in variant 1 it
carries `use_correction` exactly when defined. -/
theorem c5_options_appended_iff_defined (req : InboundRequest) (f : FilePart)
    (uc : Option String) :
    (buildForm req).filter (fun fld => fld.name == "is_multi") =
      optField "is_multi" req.is_multi ∧
    (buildForm req).filter (fun fld => fld.name == "model") =
      optField "model" req.model ∧
    (buildForm req).filter (fun fld => fld.name == "ai_detect") =
      optField "ai_detect" req.ai_detect ∧
    (buildForm req).filter (fun fld => fld.name == "use_correction") = [] ∧
    (buildFormV1 f uc).filter (fun fld => fld.name == "use_correction") =
      optField "use_correction" uc := by
  obtain ⟨file, url, im, mo, ad⟩ := req
  have h1 := mediaFields_filter_eq_nil file url "is_multi" (by decide) (by decide)
  have h2 := mediaFields_filter_eq_nil file url "model" (by decide) (by decide)
  have h3 := mediaFields_filter_eq_nil file url "ai_detect" (by decide) (by decide)
  have h4 := mediaFields_filter_eq_nil file url "use_correction" (by decide) (by decide)
  rcases im with _ | a <;> rcases mo with _ | b <;> rcases ad with _ | c <;>
    rcases uc with _ | d <;>
    simp_all [buildForm, buildFormV1, optField, List.filter_append]

/-- Claim C9: when both a file and a url are supplied, the outbound form
carries the file field (original filename and declared content type) and
no url field. -/
theorem c9_file_precedence (req : InboundRequest) (f : FilePart) (u : String)
    (hf : req.file = some f) (hu : req.url = some u) :
    (⟨"file", .fileVal f.buffer f.originalname f.mimetype⟩ : FormField) ∈ buildForm req ∧
    ∀ v, (⟨"url", v⟩ : FormField) ∉ buildForm req := by
  obtain ⟨file, url, im, mo, ad⟩ := req
  simp only at hf hu
  subst hf
  subst hu
  constructor
  · simp [buildForm, mediaFields]
  · intro v
    rcases im with _ | a <;> rcases mo with _ | b <;> rcases ad with _ | c <;>
      simp [buildForm, mediaFields, optField]

/-- Witness for C9 at a concrete request carrying both a file and a
url. -/
theorem c9_witness :
    (⟨"file", .fileVal "JPGBYTES" "pic.jpg" "image/jpeg"⟩ : FormField) ∈
      buildForm ⟨some ⟨"JPGBYTES", "pic.jpg", "image/jpeg", 9⟩,
        some "http://e.com/b.jpg", some "1", none, none⟩ ∧
    ∀ v, (⟨"url", v⟩ : FormField) ∉
      buildForm ⟨some ⟨"JPGBYTES", "pic.jpg", "image/jpeg", 9⟩,
        some "http://e.com/b.jpg", some "1", none, none⟩ :=
  c9_file_precedence
    ⟨some ⟨"JPGBYTES", "pic.jpg", "image/jpeg", 9⟩,
      some "http://e.com/b.jpg", some "1", none, none⟩
    ⟨"JPGBYTES", "pic.jpg", "image/jpeg", 9⟩ "http://e.com/b.jpg" rfl rfl

/-- Claim C10, counterexample to the claim as stated: with the falsy
code 0 and a present but empty `message` field, the mapped message is
the generic service-error text, not the (empty) `message` field. -/
theorem c10_counterexample :
    (UpstreamData.mk (some 0) (some "")).message = some "" ∧
    mapErrorMessage (UpstreamData.mk (some 0) (some "")) = defaultServiceError ∧
    defaultServiceError ≠ "" := by
  exact ⟨rfl, by decide, by decide⟩

/-- Claim C10, amended: a falsy numeric code (code 0) skips the
error-code table entirely and the mapped message is the body's `message`
field when truthy (present and non-empty), else the generic
service-error message. -/
theorem c10_falsy_code_skips_table (d : UpstreamData) (hc : d.code = some 0) :
    mapErrorMessage d = messageOr d.message defaultServiceError := by
  simp [mapErrorMessage, hc]

/-- Witness for amended C10: code 0 with a non-empty message falls back
to that message even though 0 is not a table hit. -/
theorem c10_witness :
    mapErrorMessage (UpstreamData.mk (some 0) (some "from upstream")) = "from upstream" := by
  rw [c10_falsy_code_skips_table (UpstreamData.mk (some 0) (some "from upstream")) rfl]
  decide

/-- Claim C6, counterexample to the claim as stated: a request with a
non-image file is rejected before any outbound call, but with HTTP 500
and the generic internal-error message, not 400 — the fileFilter raises
a plain `Error`, which the error middleware does not recognize as a
`MulterError`. -/
theorem c6_counterexample :
    processRequest ⟨some ⟨"HELLO", "a.txt", "text/plain", 5⟩, none, none, none, none⟩
        (.success "ok") =
      (⟨500, .errBody internalErrorMsg none⟩, none) ∧
    (500 : Nat) ≠ 400 := by
  exact ⟨by decide, by decide⟩

/-- Claim C6, amended: a request with a file whose mimetype does not
start with `image/` is rejected before any outbound call is attempted,
with HTTP 500 and the generic internal-server-error message. -/
theorem c6_nonimage_rejected_500 (req : InboundRequest) (f : FilePart)
    (outcome : UpstreamOutcome)
    (hf : req.file = some f)
    (hmt : jsStartsWith f.mimetype "image/" = false) :
    processRequest req outcome = (⟨500, .errBody internalErrorMsg none⟩, none) := by
  simp [processRequest, intake, hf, hmt]

/-- Witness for amended C6 at a concrete PDF upload. -/
theorem c6_witness :
    processRequest ⟨some ⟨"PDFBYTES", "doc.pdf", "application/pdf", 4⟩,
        some "http://e.com/d.png", none, none, none⟩ .unreachable =
      (⟨500, .errBody internalErrorMsg none⟩, none) :=
  c6_nonimage_rejected_500 _ ⟨"PDFBYTES", "doc.pdf", "application/pdf", 4⟩ _ rfl (by decide)

/-- Claim C7, counterexample to the claim as stated: a file larger than
the 5 MiB limit whose mimetype is not an image is rejected by the type
filter (HTTP 500, generic message), not with the 400 size-limit
response, because multer consults the fileFilter before streaming the
data that would trip the size limit. -/
theorem c7_counterexample :
    processRequest ⟨some ⟨"X", "big.txt", "text/plain", 5242881⟩, none, none, none, none⟩
        (.success "ok") =
      (⟨500, .errBody internalErrorMsg none⟩, none) ∧
    5242881 > fileSizeLimit ∧
    (500 : Nat) ≠ 400 ∧
    internalErrorMsg ≠ sizeLimitMsg := by
  exact ⟨by decide, by decide, by decide, by decide⟩

/-- Claim C7, amended: a request with an image-typed file larger than
the 5 MiB limit gets HTTP 400 with the size-limit message, and no
outbound call is attempted. -/
theorem c7_oversize_image_400 (req : InboundRequest) (f : FilePart)
    (outcome : UpstreamOutcome)
    (hf : req.file = some f)
    (hmt : jsStartsWith f.mimetype "image/" = true)
    (hsz : f.size > fileSizeLimit) :
    processRequest req outcome = (⟨400, .errBody sizeLimitMsg none⟩, none) := by
  simp [processRequest, intake, hf, hmt, hsz]

/-- Witness for amended C7 at a concrete oversize PNG. -/
theorem c7_witness :
    processRequest ⟨some ⟨"BIG", "big.png", "image/png", 5242881⟩,
        none, none, none, none⟩ .unreachable =
      (⟨400, .errBody sizeLimitMsg none⟩, none) :=
  c7_oversize_image_400 _ ⟨"BIG", "big.png", "image/png", 5242881⟩ _ rfl
    (by decide) (by decide)

/-- Claim C8: every failure response is an error envelope, and its
`details` field is present exactly when the upstream answered with a
(structured) error body — i.e. exactly on the `error.response` path,
where it carries that body; validation failures, unreachable and
request-build failures carry no `details`. -/
theorem c8_details_iff (req : InboundRequest) (outcome : UpstreamOutcome)
    (msg : String) (det : Option UpstreamData)
    (hbody : (processRequest req outcome).1.body = .errBody msg det) :
    det.isSome = true ↔
      ∃ st d, outcome = .rejected st d ∧ det = some d ∧
        (processRequest req outcome).2 = some (buildForm req) := by
  rcases hi : intake req.file with _ | _ | _ <;>
  rcases outcome with _ | ⟨st, d⟩ | _ | _ <;>
  rcases hfile : req.file with _ | f <;>
  cases hurl : strTruthy req.url <;>
  simp_all [processRequest, dispatch]
  all_goals obtain ⟨hmsg, hdet⟩ := hbody
  all_goals subst hdet
  all_goals simp

/-- Witness for C8: a concrete upstream rejection whose body is echoed
as `details`. -/
theorem c8_witness :
    ((some (UpstreamData.mk (some 1) none) : Option UpstreamData).isSome = true) ↔
      ∃ st d, (UpstreamOutcome.rejected 502 (UpstreamData.mk (some 1) none)) =
          .rejected st d ∧
        (some (UpstreamData.mk (some 1) none) : Option UpstreamData) = some d ∧
        (processRequest ⟨none, some "http://e.com/c.png", none, none, none⟩
            (.rejected 502 (UpstreamData.mk (some 1) none))).2 =
          some (buildForm ⟨none, some "http://e.com/c.png", none, none, none⟩) :=
  c8_details_iff ⟨none, some "http://e.com/c.png", none, none, none⟩
    (.rejected 502 (UpstreamData.mk (some 1) none))
    (mapErrorMessage (UpstreamData.mk (some 1) none))
    (some (UpstreamData.mk (some 1) none)) rfl

end AnimeFace
